import Mathlib

/-!
Verification of the generated asset-symbol header
`DerivedData/.../DerivedSources/GeneratedAssetSymbols.h` of ThemeKit.

The header is a flat list of C string constants: one bundle identifier
and sixteen asset-catalog color resource names.  We embed each constant
as a Lean `String` definition with the source's name, and the whole file
as the ordered list `declarations` of (symbol name, bound value) pairs,
in source order.
-/

namespace ThemeKit

/-- The resource bundle ID (`static NSString * const ACBundleID = @"themekit.ThemeKit"`). -/
def ACBundleID : String := "themekit.ThemeKit"

/-- The "bubblegum" asset catalog color resource. -/
def ACColorNameBubblegum : String := "bubblegum"

/-- The "buttercup" asset catalog color resource. -/
def ACColorNameButtercup : String := "buttercup"

/-- The "indigo" asset catalog color resource. -/
def ACColorNameIndigo : String := "indigo"

/-- The "lavender" asset catalog color resource. -/
def ACColorNameLavender : String := "lavender"

/-- The "magenta" asset catalog color resource. -/
def ACColorNameMagenta : String := "magenta"

/-- The "navy" asset catalog color resource. -/
def ACColorNameNavy : String := "navy"

/-- The "orange" asset catalog color resource. -/
def ACColorNameOrange : String := "orange"

/-- The "oxblood" asset catalog color resource. -/
def ACColorNameOxblood : String := "oxblood"

/-- The "periwinkle" asset catalog color resource. -/
def ACColorNamePeriwinkle : String := "periwinkle"

/-- The "poppy" asset catalog color resource. -/
def ACColorNamePoppy : String := "poppy"

/-- The "purple" asset catalog color resource. -/
def ACColorNamePurple : String := "purple"

/-- The "seafoam" asset catalog color resource. -/
def ACColorNameSeafoam : String := "seafoam"

/-- The "sky" asset catalog color resource. -/
def ACColorNameSky : String := "sky"

/-- The "tan" asset catalog color resource. -/
def ACColorNameTan : String := "tan"

/-- The "teal" asset catalog color resource. -/
def ACColorNameTeal : String := "teal"

/-- The "yellow" asset catalog color resource. -/
def ACColorNameYellow : String := "yellow"

/-- The sixteen color-resource declarations of the header, in source
order: each pair is (symbol name, bound string value). -/
def colorDeclarations : List (String × String) :=
  [("ACColorNameBubblegum",  ACColorNameBubblegum),
   ("ACColorNameButtercup",  ACColorNameButtercup),
   ("ACColorNameIndigo",     ACColorNameIndigo),
   ("ACColorNameLavender",   ACColorNameLavender),
   ("ACColorNameMagenta",    ACColorNameMagenta),
   ("ACColorNameNavy",       ACColorNameNavy),
   ("ACColorNameOrange",     ACColorNameOrange),
   ("ACColorNameOxblood",    ACColorNameOxblood),
   ("ACColorNamePeriwinkle", ACColorNamePeriwinkle),
   ("ACColorNamePoppy",      ACColorNamePoppy),
   ("ACColorNamePurple",     ACColorNamePurple),
   ("ACColorNameSeafoam",    ACColorNameSeafoam),
   ("ACColorNameSky",        ACColorNameSky),
   ("ACColorNameTan",        ACColorNameTan),
   ("ACColorNameTeal",       ACColorNameTeal),
   ("ACColorNameYellow",     ACColorNameYellow)]

/-- Every constant declaration of the header, in source order: the
bundle identifier followed by the sixteen color constants. -/
def declarations : List (String × String) :=
  ("ACBundleID", ACBundleID) :: colorDeclarations

/-- Referencing a declared constant by its symbol name: total lookup in
the declaration list, `none` only when no such symbol is declared. -/
def readConstant (sym : String) : Option String :=
  (declarations.find? (fun p => p.fst == sym)).map Prod.snd

/-- Uppercase the first character of a string, leaving the rest alone. -/
def capFirst (s : String) : String :=
  match s.data with
  | [] => ""
  | c :: cs => String.mk (Char.toUpper c :: cs)

/-- Lowercase the first character of a string, leaving the rest alone. -/
def lowerFirst (s : String) : String :=
  match s.data with
  | [] => ""
  | c :: cs => String.mk (Char.toLower c :: cs)

/-- The symbol name the generator derives for a color asset: the
`ACColorName` tag followed by the asset name with its first letter
uppercased. -/
def symbolFor (asset : String) : String :=
  "ACColorName" ++ capFirst asset

/-- The naming rule read off a color symbol name: drop the 11-character
`ACColorName` tag and lowercase the first letter of the remaining
suffix. -/
def ruleValue (sym : String) : String :=
  lowerFirst (sym.drop 11)

/-- Modelled from the spec: the build-time generation step (the asset
catalog compiler that emits `GeneratedAssetSymbols.h`) is external to
the repository; per the spec it renders, from the catalog's ordered
list of color asset names, the bundle-identifier declaration followed
by one color constant per asset. -/
def generate (catalog : List String) : List (String × String) :=
  ("ACBundleID", "themekit.ThemeKit") :: catalog.map (fun n => (symbolFor n, n))

/-- The ordered list of color asset names of the source catalog, as
mirrored by the checked-in header. -/
def catalog : List String :=
  ["bubblegum", "buttercup", "indigo", "lavender", "magenta", "navy",
   "orange", "oxblood", "periwinkle", "poppy", "purple", "seafoam",
   "sky", "tan", "teal", "yellow"]

/-- C1: every declared color resource constant is bound to exactly the
asset name it denotes: Bubblegum to "bubblegum", Buttercup to
"buttercup", Indigo to "indigo", Lavender to "lavender", Magenta to
"magenta", Navy to "navy", Orange to "orange", Oxblood to "oxblood",
Periwinkle to "periwinkle", Poppy to "poppy", Purple to "purple",
Seafoam to "seafoam", Sky to "sky", Tan to "tan", Teal to "teal" and
Yellow to "yellow". -/
theorem c1_color_values_match_assets :
    ACColorNameBubblegum = "bubblegum" ∧
    ACColorNameButtercup = "buttercup" ∧
    ACColorNameIndigo = "indigo" ∧
    ACColorNameLavender = "lavender" ∧
    ACColorNameMagenta = "magenta" ∧
    ACColorNameNavy = "navy" ∧
    ACColorNameOrange = "orange" ∧
    ACColorNameOxblood = "oxblood" ∧
    ACColorNamePeriwinkle = "periwinkle" ∧
    ACColorNamePoppy = "poppy" ∧
    ACColorNamePurple = "purple" ∧
    ACColorNameSeafoam = "seafoam" ∧
    ACColorNameSky = "sky" ∧
    ACColorNameTan = "tan" ∧
    ACColorNameTeal = "teal" ∧
    ACColorNameYellow = "yellow" := by
  decide

/-- C2: all declared constant names of the header (ACBundleID and the
sixteen color constant names) are pairwise distinct. -/
theorem c2_names_pairwise_distinct :
    (declarations.map Prod.fst).Nodup := by
  decide

/-- C3: every declared constant of the header (ACBundleID and each of
the 16 color constants) is bound to a non-empty literal string. -/
theorem c3_values_nonempty :
    ∀ p ∈ declarations, p.snd ≠ "" := by
  decide

/-- Witness for C3 at the concrete declaration of ACColorNameTeal. -/
theorem c3_values_nonempty_witness :
    ("ACColorNameTeal", ACColorNameTeal) ∈ declarations ∧
    ("ACColorNameTeal", ACColorNameTeal).snd ≠ "" :=
  ⟨by decide, c3_values_nonempty ("ACColorNameTeal", ACColorNameTeal) (by decide)⟩

/-- C4: the header declares exactly one bundle-identifier constant,
named ACBundleID, and it is bound to the single fixed value
"themekit.ThemeKit". -/
theorem c4_unique_bundle_id :
    declarations.filter (fun p => p.fst == "ACBundleID")
      = [("ACBundleID", "themekit.ThemeKit")] ∧
    ACBundleID = "themekit.ThemeKit" := by
  decide

/-- C5: referencing any declared constant never fails: looking up any
declared symbol name always succeeds and returns that constant's fixed
string value. -/
theorem c5_read_never_fails :
    ∀ n v, (n, v) ∈ declarations → readConstant n = some v := by
  intro n v h
  fin_cases h <;> decide

/-- Witness for C5 at the concrete declared symbol ACColorNameSky. -/
theorem c5_read_never_fails_witness :
    readConstant "ACColorNameSky" = some "sky" :=
  c5_read_never_fails "ACColorNameSky" "sky" (by decide)

/-- C6: generation is a deterministic function of the catalog, so
regenerating from an unchanged catalog yields identical output; on the
actual catalog it reproduces exactly the checked-in declaration list. -/
theorem c6_generation_deterministic :
    generate catalog = declarations ∧
    ∀ c₁ c₂ : List String, c₁ = c₂ → generate c₁ = generate c₂ := by
  constructor
  · decide
  · intro c₁ c₂ h
    rw [h]

/-- Witness for C6: two generations from the same one-asset catalog
agree. -/
theorem c6_generation_deterministic_witness :
    generate ["sky"] = generate ["sky"] :=
  c6_generation_deterministic.2 ["sky"] ["sky"] rfl

/-- C7: appending one new color asset to the catalog and regenerating
produces exactly the old declaration list followed by exactly one new
color constant: every previously declared constant, name and value, is
unchanged, and the output has exactly one more entry. -/
theorem c7_add_one_asset :
    ∀ (c : List String) (n : String),
      generate (c ++ [n]) = generate c ++ [(symbolFor n, n)] ∧
      (generate (c ++ [n])).length = (generate c).length + 1 := by
  intro c n
  constructor
  · simp [generate]
  · simp [generate]

/-- C8: the header declares exactly 17 string constants: the bundle
identifier plus exactly 16 color resource name constants. -/
theorem c8_exactly_seventeen :
    declarations.length = 17 ∧
    colorDeclarations.length = 16 ∧
    declarations = ("ACBundleID", ACBundleID) :: colorDeclarations := by
  decide

/-- C9: the bound string values of all 17 declared constants are
pairwise distinct: no two constants share a string literal. -/
theorem c9_values_pairwise_distinct :
    (declarations.map Prod.snd).Nodup := by
  decide

/-- C10: each color constant's symbol name determines its value by the
fixed renaming rule (drop the ACColorName tag, lowercase the first
letter of the suffix); conversely each symbol name is the image of its
value under `symbolFor`, and the rule is injective on the declared
symbols. -/
theorem c10_naming_rule :
    (∀ p ∈ colorDeclarations, p.snd = ruleValue p.fst) ∧
    (∀ p ∈ colorDeclarations, p.fst = symbolFor p.snd) ∧
    (colorDeclarations.map (fun p => ruleValue p.fst)).Nodup := by
  refine ⟨?_, ?_, ?_⟩ <;> decide

/-- Witness for C10 at the concrete declaration of
ACColorNamePeriwinkle. -/
theorem c10_naming_rule_witness :
    ("ACColorNamePeriwinkle", ACColorNamePeriwinkle) ∈ colorDeclarations ∧
    ACColorNamePeriwinkle = ruleValue "ACColorNamePeriwinkle" :=
  ⟨by decide,
   c10_naming_rule.1 ("ACColorNamePeriwinkle", ACColorNamePeriwinkle) (by decide)⟩

end ThemeKit
